import Mathlib

namespace OpenMeteoSpec

/-!
Shallow embedding of the daily-weather retrieval and completeness pipeline of
`openmeteo.py` (functions `fetch_daily_weather`, `check_missing_days_daily`,
`haversine_km`, `find_closest_site`).

Calendar dates are modelled as integer day ordinals (days since 1970-01-01).
`parseIsoDate` models `pd.to_datetime(_, errors="coerce").dt.date` on the ISO
`YYYY-MM-DD` date strings of the provider: a string in that format parses to
its day ordinal, anything else coerces to `NaT`, modelled as `none`.

The streamlit calls `st.error` / `st.warning` / `st.write` that
`fetch_daily_weather` performs are its only error-reporting channel (the
function returns an empty frame in every protocol-failure branch), so they are
modelled explicitly as a list of emitted messages.  Exceptions raised by the
pandas layer (`KeyError` on a missing column, `ValueError` on unequal parallel
arrays) are modelled with `Except`.
-/

/-- Split a character list on the character `-`, as `String.split` would. -/
def splitDashAux : List Char → List Char → List (List Char)
  | [], acc => [acc.reverse]
  | c :: cs, acc =>
    if c = '-' then acc.reverse :: splitDashAux cs []
    else splitDashAux cs (c :: acc)

/-- Read a decimal numeral from a character list; `none` on a non-digit. -/
def readNatAux : List Char → Nat → Option Nat
  | [], acc => some acc
  | c :: cs, acc =>
    if c.isDigit then readNatAux cs (acc * 10 + (c.toNat - 48)) else none

def isLeapYear (y : Nat) : Bool :=
  y % 4 == 0 && (y % 100 != 0 || y % 400 == 0)

def daysInMonth (y m : Nat) : Nat :=
  if m = 2 then (if isLeapYear y then 29 else 28)
  else if m = 4 ∨ m = 6 ∨ m = 9 ∨ m = 11 then 30
  else 31

/-- Proleptic-Gregorian day ordinal of a civil date (days since 1970-01-01). -/
def daysFromCivil (y m d : Nat) : Int :=
  let yi : Int := if m ≤ 2 then (y : Int) - 1 else (y : Int)
  let era : Int := (if 0 ≤ yi then yi else yi - 399) / 400
  let yoe : Int := yi - era * 400
  let mp : Int := if 2 < m then (m : Int) - 3 else (m : Int) + 9
  let doy : Int := (153 * mp + 2) / 5 + (d : Int) - 1
  let doe : Int := yoe * 365 + yoe / 4 - yoe / 100 + doy
  era * 146097 + doe - 719468

/-- Model of `pd.to_datetime(_, errors="coerce").dt.date` restricted to the
ISO `YYYY-MM-DD` strings the provider emits; any other string yields `NaT`
(`none`). -/
def parseIsoDate (s : String) : Option Int :=
  match splitDashAux s.toList [] with
  | [ys, ms, ds] =>
    if ys.length = 4 ∧ ms.length = 2 ∧ ds.length = 2 then
      match readNatAux ys 0, readNatAux ms 0, readNatAux ds 0 with
      | some y, some m, some d =>
        if 1 ≤ m ∧ m ≤ 12 ∧ 1 ≤ d ∧ d ≤ daysInMonth y m then
          some (daysFromCivil y m d)
        else none
      | _, _, _ => none
    else none
  | _ => none

/-- One normalized row of the final frame: columns
`date / temp_max_C / temp_min_C / rain_mm` of `fetch_daily_weather`.
`date = none` models a `NaT` produced by the coercing date parse. -/
structure DailyRecord where
  date : Option Int
  temp_max_C : Option ℚ
  temp_min_C : Option ℚ
  rain_mm : Option ℚ
deriving DecidableEq, Repr

/-- The parallel arrays of the `daily` block of the provider; each field is `none`
when the corresponding key is absent from the JSON object. -/
structure DailyBlock where
  time : Option (List String)
  temperature_2m_max : Option (List (Option ℚ))
  temperature_2m_min : Option (List (Option ℚ))
  precipitation_sum : Option (List (Option ℚ))
deriving DecidableEq, Repr

/-- The parsed JSON body, restricted to the keys `fetch_daily_weather`
touches (`latitude`, `longitude`, `elevation` via `data.get`, and `daily`). -/
structure ApiData where
  latitude : Option ℚ
  longitude : Option ℚ
  elevation : Option ℚ
  daily : Option DailyBlock
deriving DecidableEq, Repr

/-- The `requests` response as the function observes it: status code, URL,
raw body text, and the outcome of `r.json()` (`none` models the body not
being parseable as JSON, i.e. `r.json()` raising). -/
structure HttpResponse where
  status_code : Int
  url : String
  text : String
  json : Option ApiData
deriving DecidableEq, Repr

/-- The `meta` dict built from `data.get("latitude")` etc. -/
structure Meta where
  lat_used : Option ℚ
  lon_used : Option ℚ
  elevation_m : Option ℚ
deriving DecidableEq, Repr

/-- Streamlit messages emitted by `fetch_daily_weather`
(`st.error`, `st.warning`, `st.write`). -/
inductive Msg where
  | error (text : String)
  | warning (text : String)
  | write (text : String)
deriving DecidableEq, Repr

/-- Exceptions of the pandas layer: `ValueError` from `pd.DataFrame` on
unequal parallel arrays, `KeyError` from a column access on a missing key. -/
inductive PdError where
  | valueError (detail : String)
  | keyError (key : String)
deriving DecidableEq, Repr

/-- Lengths of the arrays actually present in the `daily` block. -/
def blockLengths (b : DailyBlock) : List Nat :=
  (b.time.map List.length).toList
    ++ (b.temperature_2m_max.map List.length).toList
    ++ (b.temperature_2m_min.map List.length).toList
    ++ (b.precipitation_sum.map List.length).toList

/-- Model of the `pd.DataFrame` length check: the dict of parallel arrays is
accepted iff all present arrays share one length. -/
def lengthsOk (b : DailyBlock) : Bool :=
  match blockLengths b with
  | [] => true
  | n :: ns => ns.all fun m => m == n

/-- Row-wise zip of the four parallel columns, one record per index. -/
def zipRecords : List (Option Int) → List (Option ℚ) → List (Option ℚ) →
    List (Option ℚ) → List DailyRecord
  | d :: ds, x :: xs, y :: ys, z :: zs =>
    ⟨d, x, y, z⟩ :: zipRecords ds xs ys zs
  | _, _, _, _ => []

/-- The pandas section of `fetch_daily_weather` (lines 102-116 of
`openmeteo.py`): `df = pd.DataFrame(daily)` (raises `ValueError` on
mismatched array lengths), `df["date"] = pd.to_datetime(df["time"],
errors="coerce").dt.date` (raises `KeyError` when `time` is absent), the
column rename, and the selection `df[["date","temp_max_C","temp_min_C",
"rain_mm"]]` (raises `KeyError` on a missing variable column). -/
def normalize_daily (b : DailyBlock) : Except PdError (List DailyRecord) :=
  if lengthsOk b = false then
    Except.error (PdError.valueError ("All arrays must be of the same length"))
  else
    match b.time with
    | none => Except.error (PdError.keyError ("time"))
    | some ts =>
      match b.temperature_2m_max with
      | none => Except.error (PdError.keyError ("temp_max_C"))
      | some xs =>
        match b.temperature_2m_min with
        | none => Except.error (PdError.keyError ("temp_min_C"))
        | some ys =>
          match b.precipitation_sum with
          | none => Except.error (PdError.keyError ("rain_mm"))
          | some zs => Except.ok (zipRecords (ts.map parseIsoDate) xs ys zs)

/-- Embedding of `fetch_daily_weather` of `openmeteo.py`, from the point
where the HTTP response is in hand.  First component: the streamlit messages emitted, in
order.  Second component: the returned `(df, meta)` pair, or the uncaught
pandas exception. -/
def fetch_daily_weather (r : HttpResponse) :
    List Msg × Except PdError (List DailyRecord × Option Meta) :=
  let debug : List Msg :=
    [Msg.write ("DEBUG status_code: " ++ toString r.status_code),
     Msg.write ("DEBUG URL appelee: " ++ r.url)]
  if r.status_code ≠ 200 then
    (debug ++
      [Msg.error ("Erreur API Open-Meteo (HTTP " ++ toString r.status_code ++ ")"),
       Msg.write ("Reponse brute: " ++ r.text.take 500)],
     Except.ok ([], none))
  else
    match r.json with
    | none =>
      (debug ++
        [Msg.error ("Reponse API illisible (pas du JSON)"),
         Msg.write ("Reponse brute: " ++ r.text.take 500)],
       Except.ok ([], none))
    | some data =>
      match data.daily with
      | none =>
        (debug ++ [Msg.warning ("Pas de champ daily dans la reponse")],
         Except.ok ([], none))
      | some daily =>
        match normalize_daily daily with
        | Except.error e => (debug, Except.error e)
        | Except.ok recs =>
          (debug,
           Except.ok (recs, some ⟨data.latitude, data.longitude, data.elevation⟩))

/-- Returns `true` iff the emitted message list contains an `st.error`-level
message: the protocol-failure indicator of the fetcher. -/
def hasError : List Msg → Bool
  | [] => false
  | Msg.error _ :: _ => true
  | _ :: ms => hasError ms

/-- Model of `pd.date_range(start, end, freq="D").date`: the inclusive day
sequence from `s` to `e` (empty when `s > e`). -/
def date_range (s e : Int) : List Int :=
  (List.range (e - s + 1).toNat).map fun (i : Nat) => s + (i : Int)

/-- Embedding of `check_missing_days_daily` of `openmeteo.py` (lines
128-140): returns the missing-day list and the all-present boolean. -/
def check_missing_days_daily (df : List DailyRecord) (s e : Int) :
    List Int × Bool :=
  let expected := date_range s e
  if df.isEmpty then (expected, false)
  else
    let got := df.map fun r => r.date
    let missing := expected.filter fun d => !(got.contains (some d))
    (missing, missing.length == 0)

/-- Model of `math.radians`: degree-to-radian conversion. -/
noncomputable def radians (x : ℝ) : ℝ := x * Real.pi / 180

/-- Model of `math.atan2 y x`: the two-argument arctangent. -/
noncomputable def atan2 (y x : ℝ) : ℝ :=
  if 0 < x then Real.arctan (y / x)
  else if x < 0 then
    (if 0 ≤ y then Real.arctan (y / x) + Real.pi
     else Real.arctan (y / x) - Real.pi)
  else
    (if 0 < y then Real.pi / 2
     else if y < 0 then -(Real.pi / 2)
     else 0)

/-- Embedding of `haversine_km` of `openmeteo.py` (lines 157-171):
great-circle distance via the haversine formula, Earth mean radius 6371.0 km,
with real-number arithmetic standing in for the floating point of the
source.  The idealization is exact where binary64 is rounded: here
`Real.cos (radians 90)` is exactly 0, so the distance between two distinct
points of latitude 90 is exactly 0, whereas the source computes
`math.cos(math.radians(90))` as about 6.12e-17 and a small positive
distance; results that hinge on exact zeroes at such degenerate coordinates
are facts of this model, not of the program. -/
noncomputable def haversine_km (lat1 lon1 lat2 lon2 : ℝ) : ℝ :=
  let phi1 := radians lat1
  let phi2 := radians lat2
  let dphi := radians (lat2 - lat1)
  let dlambda := radians (lon2 - lon1)
  let a := Real.sin (dphi / 2) ^ 2 +
    Real.cos phi1 * Real.cos phi2 * Real.sin (dlambda / 2) ^ 2
  let c := 2 * atan2 (Real.sqrt a) (Real.sqrt (1 - a))
  6371 * c

/-- One entry of the `KNOWN_SITES` catalog. -/
structure Site where
  name : String
  lat : ℝ
  lon : ℝ

/-- The `for site in sites` loop of `find_closest_site`, with the running
`best_site` / `best_dist` accumulators (`none` models the Python value `None`). -/
noncomputable def fcs_loop (lat_user lon_user : ℝ) :
    List Site → Option Site → Option ℝ → Option Site × Option ℝ
  | [], best_site, best_dist => (best_site, best_dist)
  | site :: rest, best_site, best_dist =>
    let d := haversine_km lat_user lon_user site.lat site.lon
    match best_dist with
    | none => fcs_loop lat_user lon_user rest (some site) (some d)
    | some b =>
      if d < b then fcs_loop lat_user lon_user rest (some site) (some d)
      else fcs_loop lat_user lon_user rest best_site best_dist

/-- Embedding of `find_closest_site` of `openmeteo.py` (lines 174-185). -/
noncomputable def find_closest_site (lat_user lon_user : ℝ) (sites : List Site) :
    Option Site × Option ℝ :=
  fcs_loop lat_user lon_user sites none none

/-! ### Helper lemmas about the expected day sequence -/

lemma mem_date_range (s e d : Int) : d ∈ date_range s e ↔ s ≤ d ∧ d ≤ e := by
  unfold date_range
  rw [List.mem_map]
  constructor
  · rintro ⟨i, hi, rfl⟩
    rw [List.mem_range] at hi
    show s ≤ s + (i : Int) ∧ s + (i : Int) ≤ e
    omega
  · rintro ⟨h1, h2⟩
    refine ⟨(d - s).toNat, ?_, ?_⟩
    · rw [List.mem_range]
      omega
    · show s + ((d - s).toNat : Int) = d
      omega

lemma pairwise_date_range (s e : Int) :
    List.Pairwise (· < ·) (date_range s e) :=
  List.Pairwise.map _
    (fun a b hab => by
      have hab2 : a < b := hab
      show s + (a : Int) < s + (b : Int)
      omega)
    (List.pairwise_lt_range _)

lemma check_missing_fst (df : List DailyRecord) (s e : Int) :
    (check_missing_days_daily df s e).1 =
      (date_range s e).filter
        fun d => !((df.map fun r => r.date).contains (some d)) := by
  unfold check_missing_days_daily
  by_cases h : df.isEmpty
  · have hdf : df = [] := by simpa [List.isEmpty_iff] using h
    subst hdf
    simp [List.contains]
  · simp [h]

/-- Claim C3: for every record set and every range with `start ≤ end`,
`check_missing_days_daily` returns exactly the inclusive calendar-day
sequence from `start` to `end` minus the dates present in the records, and
reports it in chronological order (the order of the expected sequence). -/
theorem check_missing_days_daily_spec (df : List DailyRecord) (s e : Int)
    (h : s ≤ e) :
    (∀ d : Int, d ∈ (check_missing_days_daily df s e).1 ↔
      (s ≤ d ∧ d ≤ e ∧ some d ∉ df.map fun r => r.date))
    ∧ List.Pairwise (· < ·) (check_missing_days_daily df s e).1 := by
  rw [check_missing_fst]
  constructor
  · intro d
    rw [List.mem_filter, mem_date_range]
    simp [List.contains, List.elem_iff, and_assoc]
  · exact List.Pairwise.filter _ (pairwise_date_range s e)

/-- Witness for C3: range 0..2 against records holding only day 1; the
missing days are exactly 0 and 2, in order. -/
theorem check_missing_days_daily_spec_witness :
    (0 : Int) ≤ 2 ∧
      ((∀ d : Int,
          d ∈ (check_missing_days_daily [⟨some 1, none, none, none⟩] 0 2).1 ↔
            (0 ≤ d ∧ d ≤ 2 ∧
              some d ∉ ([⟨some 1, none, none, none⟩] : List DailyRecord).map
                fun r => r.date))
        ∧ List.Pairwise (· < ·)
            (check_missing_days_daily [⟨some 1, none, none, none⟩] 0 2).1) :=
  ⟨by norm_num, check_missing_days_daily_spec [⟨some 1, none, none, none⟩] 0 2 (by norm_num)⟩

/-- Claim C4: every report satisfies `is_complete = (missing_dates = [])`;
on empty records with `start ≤ end` the missing list is the whole expected
sequence and the flag is `false`.  (The function is total, so it never
fails on any input.) -/
theorem check_missing_days_daily_complete_iff (df : List DailyRecord)
    (s e : Int) (h : s ≤ e) :
    ((check_missing_days_daily df s e).2 = true ↔
      (check_missing_days_daily df s e).1 = [])
    ∧ (df = [] →
        (check_missing_days_daily df s e).1 = date_range s e
        ∧ (check_missing_days_daily df s e).2 = false) := by
  have hs : s ∈ date_range s e := (mem_date_range s e s).2 ⟨le_refl s, h⟩
  constructor
  · unfold check_missing_days_daily
    by_cases hdf : df.isEmpty
    · simp only [hdf, if_true]
      constructor
      · intro hcontra
        exact absurd hcontra (by simp)
      · intro hemp
        rw [hemp] at hs
        exact absurd hs (List.not_mem_nil s)
    · simp only [hdf, if_false]
      simp [List.length_eq_zero]
  · intro hdf
    subst hdf
    simp [check_missing_days_daily]

/-- Witness for C4: empty records over the range 5..6. -/
theorem check_missing_days_daily_complete_iff_witness :
    (5 : Int) ≤ 6 ∧
      (((check_missing_days_daily [] 5 6).2 = true ↔
          (check_missing_days_daily [] 5 6).1 = [])
        ∧ (([] : List DailyRecord) = [] →
            (check_missing_days_daily [] 5 6).1 = date_range 5 6
            ∧ (check_missing_days_daily [] 5 6).2 = false)) :=
  ⟨by norm_num, check_missing_days_daily_complete_iff [] 5 6 (by norm_num)⟩

/-! ### Helper lemmas about the normalization step -/

lemma zipRecords_maps (ds : List (Option Int)) :
    ∀ xs ys zs : List (Option ℚ),
      xs.length = ds.length → ys.length = ds.length → zs.length = ds.length →
      (zipRecords ds xs ys zs).length = ds.length
      ∧ (zipRecords ds xs ys zs).map (fun r => r.date) = ds
      ∧ (zipRecords ds xs ys zs).map (fun r => r.temp_max_C) = xs
      ∧ (zipRecords ds xs ys zs).map (fun r => r.temp_min_C) = ys
      ∧ (zipRecords ds xs ys zs).map (fun r => r.rain_mm) = zs := by
  induction ds with
  | nil =>
    intro xs ys zs hx hy hz
    have hx0 : xs = [] := List.length_eq_zero.mp hx
    have hy0 : ys = [] := List.length_eq_zero.mp hy
    have hz0 : zs = [] := List.length_eq_zero.mp hz
    subst hx0; subst hy0; subst hz0
    simp [zipRecords]
  | cons d ds ih =>
    intro xs ys zs hx hy hz
    cases xs with
    | nil => simp at hx
    | cons x xs =>
      cases ys with
      | nil => simp at hy
      | cons y ys =>
        cases zs with
        | nil => simp at hz
        | cons z zs =>
          have hx2 : xs.length = ds.length := by simpa using hx
          have hy2 : ys.length = ds.length := by simpa using hy
          have hz2 : zs.length = ds.length := by simpa using hz
          obtain ⟨hl, h1, h2, h3, h4⟩ := ih xs ys zs hx2 hy2 hz2
          simp [zipRecords, hl, h1, h2, h3, h4]

lemma normalize_daily_eq (ts : List String) (xs ys zs : List (Option ℚ))
    (hx : xs.length = ts.length) (hy : ys.length = ts.length)
    (hz : zs.length = ts.length) :
    normalize_daily ⟨some ts, some xs, some ys, some zs⟩ =
      Except.ok (zipRecords (ts.map parseIsoDate) xs ys zs) := by
  have hlen : lengthsOk ⟨some ts, some xs, some ys, some zs⟩ = true := by
    simp [lengthsOk, blockLengths, hx, hy, hz]
  simp [normalize_daily, hlen]

/-! ### Claims about the fetcher -/

/-- Claim C1: a non-2xx status or an unparseable body makes
`fetch_daily_weather` fail through its error channel (an `st.error` message
carrying the HTTP status code together with an `st.write` of the 500-char
body excerpt for the upstream case, or a parse-failure detail for the
malformed case), returning no weather data and no meta; and such a
protocol-level failure is distinguishable from the successful empty result
(200, parseable, no `daily` block), which emits no error-level message. -/
theorem fetch_daily_protocol_failure (r : HttpResponse)
    (h : (r.status_code < 200 ∨ 300 ≤ r.status_code) ∨ r.json = none) :
    ((fetch_daily_weather r).2 = Except.ok ([], none)
      ∧ hasError (fetch_daily_weather r).1 = true
      ∧ (r.status_code ≠ 200 →
          Msg.error ("Erreur API Open-Meteo (HTTP " ++ toString r.status_code ++ ")")
              ∈ (fetch_daily_weather r).1
            ∧ Msg.write ("Reponse brute: " ++ r.text.take 500)
              ∈ (fetch_daily_weather r).1)
      ∧ (r.status_code = 200 → r.json = none →
          Msg.error ("Reponse API illisible (pas du JSON)")
              ∈ (fetch_daily_weather r).1
            ∧ Msg.write ("Reponse brute: " ++ r.text.take 500)
              ∈ (fetch_daily_weather r).1))
    ∧ (∀ s : HttpResponse, s.status_code = 200 →
        ∀ dat : ApiData, s.json = some dat → dat.daily = none →
          (fetch_daily_weather s).2 = Except.ok ([], none)
          ∧ hasError (fetch_daily_weather s).1 = false) := by
  constructor
  · by_cases h200 : r.status_code = 200
    · have hj : r.json = none := by
        rcases h with h1 | h1
        · rcases h1 with h1 | h1 <;> omega
        · exact h1
      simp [fetch_daily_weather, h200, hj, hasError]
    · simp [fetch_daily_weather, h200, hasError]
  · intro s hs dat hj hd
    simp [fetch_daily_weather, hs, hj, hd, hasError]

/-- The HTTP 500 response used to witness C1. -/
def rC1 : HttpResponse := ⟨500, "u", "boom", none⟩

/-- Witness for C1 at an HTTP 500 response with an unparseable body. -/
theorem fetch_daily_protocol_failure_witness :
    ((rC1.status_code < 200 ∨ 300 ≤ rC1.status_code) ∨ rC1.json = none)
    ∧ (((fetch_daily_weather rC1).2 = Except.ok ([], none)
      ∧ hasError (fetch_daily_weather rC1).1 = true
      ∧ (rC1.status_code ≠ 200 →
          Msg.error ("Erreur API Open-Meteo (HTTP " ++ toString rC1.status_code ++ ")")
              ∈ (fetch_daily_weather rC1).1
            ∧ Msg.write ("Reponse brute: " ++ rC1.text.take 500)
              ∈ (fetch_daily_weather rC1).1)
      ∧ (rC1.status_code = 200 → rC1.json = none →
          Msg.error ("Reponse API illisible (pas du JSON)")
              ∈ (fetch_daily_weather rC1).1
            ∧ Msg.write ("Reponse brute: " ++ rC1.text.take 500)
              ∈ (fetch_daily_weather rC1).1))
    ∧ (∀ s : HttpResponse, s.status_code = 200 →
        ∀ dat : ApiData, s.json = some dat → dat.daily = none →
          (fetch_daily_weather s).2 = Except.ok ([], none)
          ∧ hasError (fetch_daily_weather s).1 = false)) :=
  ⟨Or.inl (Or.inr (by norm_num [rC1])),
   fetch_daily_protocol_failure rC1 (Or.inl (Or.inr (by norm_num [rC1])))⟩

/-- The HTTP 201 response used as counterexample to C2. -/
def rC2 : HttpResponse := ⟨201, "u", "", some ⟨none, none, none, none⟩⟩

/-- Counterexample to claim C2: a 201 response (a 2xx success) whose body
parses and lacks the `daily` block is claimed to yield the empty result
without failing, but the code compares the status to 200 exactly, so it
takes the HTTP-error path and emits an `st.error`. -/
theorem fetch_daily_2xx_no_daily_cex :
    ((200 : Int) ≤ rC2.status_code ∧ rC2.status_code < 300)
    ∧ rC2.json = some ⟨none, none, none, none⟩
    ∧ (⟨none, none, none, none⟩ : ApiData).daily = none
    ∧ (fetch_daily_weather rC2).2 = Except.ok ([], none)
    ∧ hasError (fetch_daily_weather rC2).1 = true
    ∧ Msg.error ("Erreur API Open-Meteo (HTTP " ++ toString rC2.status_code ++ ")")
        ∈ (fetch_daily_weather rC2).1 := by
  refine ⟨by norm_num [rC2], rfl, rfl, rfl, rfl, ?_⟩
  simp [fetch_daily_weather, rC2]

/-- Claim C2 as amended: for a response of status exactly 200 whose body
parses and lacks the `daily` block, the fetcher returns the empty result
(no records, no meta), emits only a warning, and does not fail. -/
theorem fetch_daily_no_daily_block (r : HttpResponse)
    (h200 : r.status_code = 200) (dat : ApiData) (hj : r.json = some dat)
    (hd : dat.daily = none) :
    (fetch_daily_weather r).2 = Except.ok ([], none)
    ∧ hasError (fetch_daily_weather r).1 = false
    ∧ Msg.warning ("Pas de champ daily dans la reponse")
        ∈ (fetch_daily_weather r).1 := by
  simp [fetch_daily_weather, h200, hj, hd, hasError]

/-- The 200-without-daily response used to witness the amended C2. -/
def rC2w : HttpResponse := ⟨200, "u", "", some ⟨none, none, none, none⟩⟩

/-- Witness for the amended C2 at a 200 response lacking the daily block. -/
theorem fetch_daily_no_daily_block_witness :
    rC2w.status_code = 200
    ∧ rC2w.json = some ⟨none, none, none, none⟩
    ∧ (⟨none, none, none, none⟩ : ApiData).daily = none
    ∧ ((fetch_daily_weather rC2w).2 = Except.ok ([], none)
      ∧ hasError (fetch_daily_weather rC2w).1 = false
      ∧ Msg.warning ("Pas de champ daily dans la reponse")
          ∈ (fetch_daily_weather rC2w).1) :=
  ⟨rfl, rfl, rfl, fetch_daily_no_daily_block rC2w rfl ⟨none, none, none, none⟩ rfl rfl⟩

/-- Claim C10: there is a 2xx response with a valid body containing the
`daily` block but no date array, on which `fetch_daily_weather` raises an
uncaught missing-column exception (`KeyError` on `time`) instead of
returning an empty result or taking an error path of its own. -/
theorem fetch_daily_missing_column_exception :
    ∃ (r : HttpResponse) (dat : ApiData) (b : DailyBlock),
      (200 ≤ r.status_code ∧ r.status_code < 300)
      ∧ r.json = some dat ∧ dat.daily = some b ∧ b.time = none
      ∧ (fetch_daily_weather r).2 = Except.error (PdError.keyError ("time")) := by
  refine ⟨⟨200, "u", "",
      some ⟨none, none, none, some ⟨none, some [some 1], some [some 2], some [some 3]⟩⟩⟩,
    ⟨none, none, none, some ⟨none, some [some 1], some [some 2], some [some 3]⟩⟩,
    ⟨none, some [some 1], some [some 2], some [some 3]⟩,
    by norm_num, rfl, rfl, rfl, ?_⟩
  rfl

/-- The 200 response with an unparseable date string used against C5. -/
def rC5 : HttpResponse :=
  ⟨200, "u", "",
    some ⟨some 48, some (-2), some 10,
      some ⟨some ["garbage"], some [some 1], some [some 2], some [some 0]⟩⟩⟩

/-- Counterexample to claim C5: the date string `garbage` fails to parse,
yet the resulting row is kept in the final records with a sentinel (`NaT`)
date rather than being excluded. -/
theorem fetch_daily_unparsed_date_kept_cex :
    parseIsoDate "garbage" = none
    ∧ (fetch_daily_weather rC5).2 =
        Except.ok ([⟨none, some 1, some 2, some 0⟩],
          some ⟨some 48, some (-2), some 10⟩)
    ∧ ((fetch_daily_weather rC5).2.toOption.map fun p => p.1.length) = some 1 :=
  ⟨rfl, rfl, rfl⟩

/-- Claim C5 as amended: for every accepted response whose `daily` block has
all four parallel arrays with one common length, the fetcher zips them into
one record per index, keeping an index whose date string fails to parse as a
record with a null (`NaT`) date — rows are never dropped and the value
columns are never mis-aligned. -/
theorem fetch_daily_zip_alignment (r : HttpResponse)
    (h200 : r.status_code = 200) (dat : ApiData) (hj : r.json = some dat)
    (ts : List String) (xs ys zs : List (Option ℚ))
    (hd : dat.daily = some ⟨some ts, some xs, some ys, some zs⟩)
    (hx : xs.length = ts.length) (hy : ys.length = ts.length)
    (hz : zs.length = ts.length) :
    ∃ recs : List DailyRecord,
      (fetch_daily_weather r).2 =
        Except.ok (recs, some ⟨dat.latitude, dat.longitude, dat.elevation⟩)
      ∧ recs.length = ts.length
      ∧ recs.map (fun rec => rec.date) = ts.map parseIsoDate
      ∧ recs.map (fun rec => rec.temp_max_C) = xs
      ∧ recs.map (fun rec => rec.temp_min_C) = ys
      ∧ recs.map (fun rec => rec.rain_mm) = zs := by
  have hnorm := normalize_daily_eq ts xs ys zs hx hy hz
  have hmaps := zipRecords_maps (ts.map parseIsoDate) xs ys zs
    (by simpa using hx) (by simpa using hy) (by simpa using hz)
  refine ⟨zipRecords (ts.map parseIsoDate) xs ys zs, ?_, ?_, ?_, ?_, ?_, ?_⟩
  · simp [fetch_daily_weather, h200, hj, hd, hnorm]
  · simpa using hmaps.1
  · exact hmaps.2.1
  · exact hmaps.2.2.1
  · exact hmaps.2.2.2.1
  · exact hmaps.2.2.2.2

/-- The response used to witness the amended C5 (one parseable and one
unparseable date). -/
def rC5w : HttpResponse :=
  ⟨200, "u", "",
    some ⟨none, none, none,
      some ⟨some ["2024-01-01", "oops"], some [some 7, some 8],
        some [some 1, some 2], some [some 0, some 3]⟩⟩⟩

/-- Witness for the amended C5. -/
theorem fetch_daily_zip_alignment_witness :
    rC5w.status_code = 200
    ∧ (∃ recs : List DailyRecord,
        (fetch_daily_weather rC5w).2 =
          Except.ok (recs, some ⟨none, none, none⟩)
        ∧ recs.length = (["2024-01-01", "oops"] : List String).length
        ∧ recs.map (fun rec => rec.date) =
            (["2024-01-01", "oops"] : List String).map parseIsoDate
        ∧ recs.map (fun rec => rec.temp_max_C) = [some 7, some 8]
        ∧ recs.map (fun rec => rec.temp_min_C) = [some 1, some 2]
        ∧ recs.map (fun rec => rec.rain_mm) = [some 0, some 3]) :=
  ⟨rfl, fetch_daily_zip_alignment rC5w rfl _ rfl
    ["2024-01-01", "oops"] [some 7, some 8] [some 1, some 2] [some 0, some 3]
    rfl rfl rfl rfl⟩

/-- The 200 response with provider dates out of order used against C9. -/
def rC9 : HttpResponse :=
  ⟨200, "u", "",
    some ⟨none, none, none,
      some ⟨some ["2024-01-02", "2024-01-01"], some [some 1, some 2],
        some [some 0, some 0], some [some 0, some 0]⟩⟩⟩

/-- Counterexample to claim C9: the fetcher accepts a provider response
whose date array is out of order and returns the records in that same
order — day 19724 (2024-01-02) before day 19723 (2024-01-01) — so the
result is not chronological. -/
theorem fetch_daily_unsorted_records_cex :
    (fetch_daily_weather rC9).2 =
      Except.ok ([⟨some 19724, some 1, some 0, some 0⟩,
        ⟨some 19723, some 2, some 0, some 0⟩], some ⟨none, none, none⟩)
    ∧ (19723 : Int) < 19724 :=
  ⟨rfl, by norm_num⟩

/-- Claim C9 as amended: the fetcher neither sorts nor deduplicates — the
record sequence follows the provider array order verbatim (its date column
is exactly the parsed provider date array), so the result is chronological
with unique dates exactly when the parsed provider date array already is. -/
theorem fetch_daily_order_follows_provider (r : HttpResponse)
    (h200 : r.status_code = 200) (dat : ApiData) (hj : r.json = some dat)
    (ts : List String) (xs ys zs : List (Option ℚ))
    (hd : dat.daily = some ⟨some ts, some xs, some ys, some zs⟩)
    (hx : xs.length = ts.length) (hy : ys.length = ts.length)
    (hz : zs.length = ts.length) :
    ∃ recs : List DailyRecord,
      (fetch_daily_weather r).2 =
        Except.ok (recs, some ⟨dat.latitude, dat.longitude, dat.elevation⟩)
      ∧ recs.map (fun rec => rec.date) = ts.map parseIsoDate
      ∧ (List.Pairwise (fun a b : Option Int => ∀ x ∈ a, ∀ y ∈ b, x < y)
            (ts.map parseIsoDate) →
          List.Pairwise (fun p q : DailyRecord =>
            ∀ x ∈ p.date, ∀ y ∈ q.date, x < y) recs) := by
  have hnorm := normalize_daily_eq ts xs ys zs hx hy hz
  have hmaps := zipRecords_maps (ts.map parseIsoDate) xs ys zs
    (by simpa using hx) (by simpa using hy) (by simpa using hz)
  refine ⟨zipRecords (ts.map parseIsoDate) xs ys zs, ?_, hmaps.2.1, ?_⟩
  · simp [fetch_daily_weather, h200, hj, hd, hnorm]
  · intro hp
    rw [← hmaps.2.1] at hp
    exact (List.pairwise_map.mp hp)

/-- Witness for the amended C9. -/
theorem fetch_daily_order_follows_provider_witness :
    rC9.status_code = 200
    ∧ (∃ recs : List DailyRecord,
        (fetch_daily_weather rC9).2 =
          Except.ok (recs, some ⟨none, none, none⟩)
        ∧ recs.map (fun rec => rec.date) =
            (["2024-01-02", "2024-01-01"] : List String).map parseIsoDate
        ∧ (List.Pairwise (fun a b : Option Int => ∀ x ∈ a, ∀ y ∈ b, x < y)
              ((["2024-01-02", "2024-01-01"] : List String).map parseIsoDate) →
            List.Pairwise (fun p q : DailyRecord =>
              ∀ x ∈ p.date, ∀ y ∈ q.date, x < y) recs)) :=
  ⟨rfl, fetch_daily_order_follows_provider rC9 rfl _ rfl
    ["2024-01-02", "2024-01-01"] [some 1, some 2] [some 0, some 0] [some 0, some 0]
    rfl rfl rfl rfl⟩

/-! ### Helper lemmas about the geo-distance resolver -/

lemma haversine_self (lat lon : ℝ) : haversine_km lat lon lat lon = 0 := by
  simp only [haversine_km, radians]
  norm_num [atan2, Real.arctan_zero, Real.sqrt_zero, Real.sqrt_one]

lemma atan2_nonneg (y x : ℝ) (hy : 0 ≤ y) : 0 ≤ atan2 y x := by
  unfold atan2
  have hpi := Real.pi_pos
  have harct := Real.neg_pi_div_two_lt_arctan (y / x)
  split_ifs with h1 h2 h3
  · rw [← Real.arctan_zero]
    exact Real.arctan_strictMono.monotone (div_nonneg hy h1.le)
  all_goals linarith

lemma haversine_nonneg_aux (a : ℝ) :
    0 ≤ 6371 * (2 * atan2 (Real.sqrt a) (Real.sqrt (1 - a))) := by
  have h := atan2_nonneg (Real.sqrt a) (Real.sqrt (1 - a)) (Real.sqrt_nonneg a)
  linarith

lemma haversine_nonneg (lat1 lon1 lat2 lon2 : ℝ) :
    0 ≤ haversine_km lat1 lon1 lat2 lon2 := by
  simp only [haversine_km, radians]
  exact haversine_nonneg_aux _

/-- Claim C7: `haversine_km` is symmetric in its two coordinates, and the
distance from a coordinate to itself is zero (over the reals the equalities
are exact, which is the up-to-rounding content of the claim). -/
theorem haversine_km_symm_and_self (lat1 lon1 lat2 lon2 : ℝ) :
    haversine_km lat1 lon1 lat2 lon2 = haversine_km lat2 lon2 lat1 lon1
    ∧ haversine_km lat1 lon1 lat1 lon1 = 0 := by
  refine ⟨?_, haversine_self lat1 lon1⟩
  simp only [haversine_km, radians]
  have ha : Real.sin ((lat1 - lat2) * Real.pi / 180 / 2) ^ 2 =
      Real.sin ((lat2 - lat1) * Real.pi / 180 / 2) ^ 2 := by
    have h : (lat1 - lat2) * Real.pi / 180 / 2 =
        -((lat2 - lat1) * Real.pi / 180 / 2) := by ring
    rw [h, Real.sin_neg]
    ring
  have hb : Real.sin ((lon1 - lon2) * Real.pi / 180 / 2) ^ 2 =
      Real.sin ((lon2 - lon1) * Real.pi / 180 / 2) ^ 2 := by
    have h : (lon1 - lon2) * Real.pi / 180 / 2 =
        -((lon2 - lon1) * Real.pi / 180 / 2) := by ring
    rw [h, Real.sin_neg]
    ring
  rw [ha, hb, mul_comm (Real.cos (lat2 * Real.pi / 180)) (Real.cos (lat1 * Real.pi / 180))]

lemma fcs_loop_char (lat lon : ℝ) (l : List Site) :
    ∀ bs : Site,
      ∃ s d,
        fcs_loop lat lon l (some bs)
            (some (haversine_km lat lon bs.lat bs.lon)) = (some s, some d)
        ∧ d = haversine_km lat lon s.lat s.lon
        ∧ ((s = bs ∧ ∀ t ∈ l, d ≤ haversine_km lat lon t.lat t.lon)
           ∨ ∃ l1 l2, l = l1 ++ s :: l2
              ∧ d < haversine_km lat lon bs.lat bs.lon
              ∧ (∀ t ∈ l1, d < haversine_km lat lon t.lat t.lon)
              ∧ (∀ t ∈ l2, d ≤ haversine_km lat lon t.lat t.lon)) := by
  induction l with
  | nil =>
    intro bs
    exact ⟨bs, _, rfl, rfl, Or.inl ⟨rfl, by simp⟩⟩
  | cons site rest ih =>
    intro bs
    by_cases hlt : haversine_km lat lon site.lat site.lon <
        haversine_km lat lon bs.lat bs.lon
    · obtain ⟨s, d, heq, hd, hcases⟩ := ih site
      refine ⟨s, d, ?_, hd, ?_⟩
      · show fcs_loop lat lon (site :: rest) (some bs)
            (some (haversine_km lat lon bs.lat bs.lon)) = (some s, some d)
        simp only [fcs_loop]
        rw [if_pos hlt]
        exact heq
      · rcases hcases with ⟨hsbs, hall⟩ | ⟨l1, l2, hsplit, hlt2, hl1, hl2⟩
        · subst hsbs
          refine Or.inr ⟨[], rest, rfl, ?_, by simp, hall⟩
          rw [hd]
          exact hlt
        · refine Or.inr ⟨site :: l1, l2, by rw [hsplit, List.cons_append], lt_trans hlt2 hlt, ?_, hl2⟩
          intro t ht
          rcases List.mem_cons.mp ht with rfl | ht2
          · exact hlt2
          · exact hl1 t ht2
    · obtain ⟨s, d, heq, hd, hcases⟩ := ih bs
      refine ⟨s, d, ?_, hd, ?_⟩
      · show fcs_loop lat lon (site :: rest) (some bs)
            (some (haversine_km lat lon bs.lat bs.lon)) = (some s, some d)
        simp only [fcs_loop]
        rw [if_neg hlt]
        exact heq
      · rcases hcases with ⟨hsbs, hall⟩ | ⟨l1, l2, hsplit, hlt2, hl1, hl2⟩
        · refine Or.inl ⟨hsbs, ?_⟩
          intro t ht
          rcases List.mem_cons.mp ht with rfl | ht2
          · rw [hd, hsbs]
            exact not_lt.mp hlt
          · exact hall t ht2
        · refine Or.inr ⟨site :: l1, l2, by rw [hsplit, List.cons_append], hlt2, ?_, hl2⟩
          intro t ht
          rcases List.mem_cons.mp ht with rfl | ht2
          · exact lt_of_lt_of_le hlt2 (not_lt.mp hlt)
          · exact hl1 t ht2

lemma find_closest_site_char (lat lon : ℝ) (s0 : Site) (rest : List Site) :
    ∃ s d,
      find_closest_site lat lon (s0 :: rest) = (some s, some d)
      ∧ d = haversine_km lat lon s.lat s.lon
      ∧ ∃ l1 l2, s0 :: rest = l1 ++ s :: l2
          ∧ (∀ t ∈ l1, d < haversine_km lat lon t.lat t.lon)
          ∧ (∀ t ∈ l2, d ≤ haversine_km lat lon t.lat t.lon) := by
  obtain ⟨s, d, heq, hd, hcases⟩ := fcs_loop_char lat lon rest s0
  refine ⟨s, d, ?_, hd, ?_⟩
  · show fcs_loop lat lon (s0 :: rest) none none = (some s, some d)
    simp only [fcs_loop]
    exact heq
  · rcases hcases with ⟨hsbs, hall⟩ | ⟨l1, l2, hsplit, hlt2, hl1, hl2⟩
    · subst hsbs
      exact ⟨[], rest, rfl, by simp, hall⟩
    · refine ⟨s0 :: l1, l2, by rw [hsplit, List.cons_append], ?_, hl2⟩
      intro t ht
      rcases List.mem_cons.mp ht with rfl | ht2
      · exact hlt2
      · exact hl1 t ht2

lemma append_cons_eq_append_cons {α : Type} {s t : α} :
    ∀ (l1 p1 : List α) (l2 p2 : List α),
      l1 ++ s :: l2 = p1 ++ t :: p2 →
      s ∈ p1 ∨ t ∈ l1 ∨ (l1 = p1 ∧ s = t ∧ l2 = p2) := by
  intro l1
  induction l1 with
  | nil =>
    intro p1 l2 p2 h
    cases p1 with
    | nil =>
      simp only [List.nil_append, List.cons.injEq] at h
      exact Or.inr (Or.inr ⟨rfl, h.1, h.2⟩)
    | cons q p1 =>
      simp only [List.nil_append, List.cons_append, List.cons.injEq] at h
      refine Or.inl ?_
      rw [h.1]
      exact List.mem_cons_self q p1
  | cons a l1 ih =>
    intro p1 l2 p2 h
    cases p1 with
    | nil =>
      simp only [List.cons_append, List.nil_append, List.cons.injEq] at h
      refine Or.inr (Or.inl ?_)
      rw [← h.1]
      exact List.mem_cons_self a l1
    | cons q p1 =>
      simp only [List.cons_append, List.cons.injEq] at h
      rcases ih p1 l2 p2 h.2 with h1 | h1 | ⟨hh1, hh2, hh3⟩
      · exact Or.inl (List.mem_cons_of_mem q h1)
      · exact Or.inr (Or.inl (List.mem_cons_of_mem a h1))
      · refine Or.inr (Or.inr ⟨?_, hh2, hh3⟩)
        rw [h.1, hh1]

/-- Characterization of `find_closest_site` over the real-valued model: on a
non-empty catalog it returns a catalog member together with its haversine
distance from the query point; the distance is non-negative and minimal over
the catalog; the winner is the first site attaining the minimum (every site
before it in iteration order is strictly farther); and when the query point
coincides with the coordinate of a catalog entry and no earlier entry lies
at model-haversine distance zero from the point, that entry is returned with
distance 0.  The last clause is stated with the distance-zero guard because
in the exact-trigonometry model distinct coordinates can be at haversine
distance zero (e.g. two points of latitude 90), a degeneracy the rounded
floating-point source does not reproduce. -/
theorem find_closest_site_spec (lat lon : ℝ) (sites : List Site)
    (hne : sites ≠ []) :
    ∃ s d,
      find_closest_site lat lon sites = (some s, some d)
      ∧ d = haversine_km lat lon s.lat s.lon
      ∧ 0 ≤ d
      ∧ s ∈ sites
      ∧ (∀ t ∈ sites, d ≤ haversine_km lat lon t.lat t.lon)
      ∧ (∃ l1 l2, sites = l1 ++ s :: l2
          ∧ ∀ t ∈ l1, d < haversine_km lat lon t.lat t.lon)
      ∧ (∀ p1 p2 : List Site, ∀ t : Site, sites = p1 ++ t :: p2 →
          lat = t.lat → lon = t.lon →
          (∀ u ∈ p1, haversine_km lat lon u.lat u.lon ≠ 0) →
          s = t ∧ d = 0) := by
  cases sites with
  | nil => exact absurd rfl hne
  | cons s0 rest =>
    obtain ⟨s, d, heq, hd, l1, l2, hsplit, hl1, hl2⟩ :=
      find_closest_site_char lat lon s0 rest
    have hmin : ∀ t ∈ s0 :: rest, d ≤ haversine_km lat lon t.lat t.lon := by
      intro t ht
      rw [hsplit] at ht
      rcases List.mem_append.mp ht with h1 | h1
      · exact le_of_lt (hl1 t h1)
      · rcases List.mem_cons.mp h1 with rfl | h2
        · rw [hd]
        · exact hl2 t h2
    have hmem : s ∈ s0 :: rest := by
      rw [hsplit]
      exact List.mem_append.mpr (Or.inr (List.mem_cons_self s l2))
    have hnn : 0 ≤ d := by
      rw [hd]
      exact haversine_nonneg lat lon s.lat s.lon
    refine ⟨s, d, heq, hd, hnn, hmem, hmin, ⟨l1, l2, hsplit, hl1⟩, ?_⟩
    intro p1 p2 t hsplit2 hlat hlon hzero
    have hEq : l1 ++ s :: l2 = p1 ++ t :: p2 := by
      rw [← hsplit, ← hsplit2]
    have hzt : haversine_km lat lon t.lat t.lon = 0 := by
      rw [← hlat, ← hlon]
      exact haversine_self lat lon
    have htmem : t ∈ s0 :: rest := by
      rw [hsplit2]
      exact List.mem_append.mpr (Or.inr (List.mem_cons_self t p2))
    have hd0 : d = 0 := by
      have h1 := hmin t htmem
      rw [hzt] at h1
      exact le_antisymm h1 hnn
    rcases append_cons_eq_append_cons l1 p1 l2 p2 hEq with hcase | hcase | ⟨hc1, hc2, hc3⟩
    · have hs0 : haversine_km lat lon s.lat s.lon = 0 := by
        rw [← hd]
        exact hd0
      exact absurd hs0 (hzero s hcase)
    · have h1 := hl1 t hcase
      rw [hzt] at h1
      exact absurd h1 (by rw [hd0]; exact lt_irrefl 0)
    · exact ⟨hc2, hd0⟩

/-- Concrete instantiation of `find_closest_site_spec` on a one-site
catalog. -/
theorem find_closest_site_spec_witness :
    (([⟨"A", 0, 0⟩] : List Site) ≠ [])
    ∧ (∃ s d,
        find_closest_site 0 0 [⟨"A", 0, 0⟩] = (some s, some d)
        ∧ d = haversine_km 0 0 s.lat s.lon
        ∧ 0 ≤ d
        ∧ s ∈ ([⟨"A", 0, 0⟩] : List Site)
        ∧ (∀ t ∈ ([⟨"A", 0, 0⟩] : List Site),
            d ≤ haversine_km 0 0 t.lat t.lon)
        ∧ (∃ l1 l2, ([⟨"A", 0, 0⟩] : List Site) = l1 ++ s :: l2
            ∧ ∀ t ∈ l1, d < haversine_km 0 0 t.lat t.lon)
        ∧ (∀ p1 p2 : List Site, ∀ t : Site,
            ([⟨"A", 0, 0⟩] : List Site) = p1 ++ t :: p2 →
            (0 : ℝ) = t.lat → (0 : ℝ) = t.lon →
            (∀ u ∈ p1, haversine_km 0 0 u.lat u.lon ≠ 0) →
            s = t ∧ d = 0)) :=
  ⟨List.cons_ne_nil _ _,
   find_closest_site_spec 0 0 [⟨"A", 0, 0⟩] (List.cons_ne_nil _ _)⟩

/-- Counterexample to claim C8: on the empty catalog `find_closest_site`
does not fail with any error — it returns normally, with the
`(None, None)` pair. -/
theorem find_closest_site_empty_cex :
    find_closest_site 0 0 [] = (none, none) := rfl

/-- Claim C8 as amended: for the empty catalog input, `find_closest_site`
returns `(None, None)` (no site, no distance) without signalling any
error; the function is total and has no failure path. -/
theorem find_closest_site_empty (lat lon : ℝ) :
    find_closest_site lat lon [] = (none, none) := rfl

end OpenMeteoSpec
